import Mathlib

/-!
Verification development for the Autonoma chrome-extension generation UI.

The definitions below are a shallow embedding of the TypeScript sources
`frontend-nextjs/src/components/chrome-extension/extension-creator.tsx`
(component `ChromeExtensionCreator`),
`frontend-nextjs/src/components/chrome-extension/simple-extension-creator.tsx`
(component `SimpleExtensionCreator`),
the debug service (class `DebugService`), and the template
`backend/app/templates/chrome_extensions/popup_timer.json`.
Stateful React handlers are embedded as pure state-transition functions:
the React `useState` cells become fields of an explicit state record, the
outcome of an awaited `fetch` becomes an explicit outcome argument, and the
list of network requests a handler issues is returned alongside the final
state.  Backend code that is not part of the source tree (the generation
orchestrator and the per-archetype builders) is modelled from the spec;
each such definition says so in its doc comment.
-/

/-- Whitespace test used by the embedding of the JavaScript method
`String.prototype.trim` (ASCII whitespace and line terminators; the other
Unicode space separators that `trim` also removes never occur in the
literals this development evaluates). -/
def isJsWhitespace (c : Char) : Bool :=
  c = ' ' || c = '\t' || c = '\n' || c = '\r' || c = '\x0b' || c = '\x0c'

/-- Character-list form of the JavaScript method `String.prototype.trim`:
drop leading whitespace, then drop trailing whitespace. -/
def jsTrimChars (l : List Char) : List Char :=
  ((l.dropWhile isJsWhitespace).reverse.dropWhile isJsWhitespace).reverse

/-- Embedding of the JavaScript expression `s.trim()`. -/
def jsTrim (s : String) : String :=
  ⟨jsTrimChars s.data⟩

/-- Embedding of the JavaScript guard `!prompt.trim()` (an empty string is
the only falsy string, so the guard holds exactly when the prompt is empty
after trimming). -/
def promptIsBlank (s : String) : Bool :=
  (jsTrimChars s.data).isEmpty

/-- Accumulator-style worker for the embedding of the JavaScript expression
`s.split(',')`. -/
def splitOnCommaAux : List Char → List Char → List (List Char)
  | [], acc => [acc.reverse]
  | c :: rest, acc =>
      if c = ',' then acc.reverse :: splitOnCommaAux rest []
      else splitOnCommaAux rest (c :: acc)

/-- Embedding of the JavaScript expression `s.split(',')` (on the empty
string it yields one empty piece, exactly as in JavaScript). -/
def splitOnComma (l : List Char) : List (List Char) :=
  splitOnCommaAux l []

/-- Embedding of the expression
`targetWebsites.split(',').map(s => s.trim()).filter(Boolean)`
which both creator components use to build the `target_websites` field of
the generate request body (extension-creator.tsx line 202,
simple-extension-creator.tsx line 216).  `filter(Boolean)` keeps exactly
the non-empty strings. -/
def parseTargetWebsites (raw : String) : List String :=
  (((splitOnComma raw.data).map fun piece => (⟨jsTrimChars piece⟩ : String)).filter
    fun s => !s.isEmpty)

/-- HTTP method of a request issued via `fetch`. -/
inductive HttpMethod where
  | GET
  | POST
deriving DecidableEq, Repr

/-- The request one invocation of the analyze operation sends: its URL, its
HTTP method, and the `prompt` field of its JSON body (`none` when the
request carries no body at all). -/
structure AnalyzeRequest where
  url : String
  method : HttpMethod
  bodyPrompt : Option String
deriving DecidableEq, Repr

/-- The `recommendations` object of an analyze response as the two creator
components read it.  Each element of `suggested_type` is represented by its
`.type` field, the only field the components access.  A JSON key that may
be absent is an `Option`; an absent `suggested_type` behaves exactly like
an empty list under the guard `?.length > 0`, so it is embedded as `[]`. -/
structure Recommendations where
  suggested_type : List String
  required_permissions : Option (List String)
  complexity_score : Option String
  estimated_development_time : Option String
deriving DecidableEq, Repr

/-- An analyze response body as the creator components read it
(`analysisData` in both files). -/
structure AnalysisData where
  recommendations : Option Recommendations
  errorMsg : Option String
deriving DecidableEq, Repr

/-- A generate response body (or the locally built failure record) as the
creator components read it: `extensionData` / `generatedExtension`. -/
structure GeneratedExtension where
  extension_id : String
  name : String
  description : String
  extension_type : String
  status : String
  error : Option String
  install_instructions : List String
  download_url : Option String
deriving DecidableEq, Repr

/-- The JSON body of the generate request both components send with
`POST /api/chrome-extension/generate`. -/
structure GenerateRequest where
  prompt : String
  extension_type : String
  permissions : List String
  target_websites : List String
deriving DecidableEq, Repr

/-- The outcome of one awaited `fetch` call plus the subsequent
`response.json()` read, made explicit so the handlers become pure
functions.  `response ok status statusText bodyText json` is a settled
HTTP response: `ok`, `status` and `statusText` are the response fields of
those names, `bodyText` is what `response.text()` would yield, and `json`
is the result of `response.json()` (`Except.error m` when that call throws
an `Error` whose message is `m`).  `networkFailure m` is a rejected fetch
(the thrown `Error` has message `m`). -/
inductive FetchOutcome (α : Type) where
  | response (ok : Bool) (status : Nat) (statusText : String) (bodyText : String)
      (json : Except String α)
  | networkFailure (msg : String)
deriving Repr

/-- The `useState` cells shared by both creator components, gathered into
one record.  The initial values are those of the `useState` calls. -/
structure CreatorState where
  step : Nat
  prompt : String
  selectedType : String
  selectedPermissions : List String
  targetWebsites : String
  isGenerating : Bool
  generationProgress : Nat
  analysis : Option AnalysisData
  generatedExtension : Option GeneratedExtension
deriving DecidableEq, Repr

/-- State of `SimpleExtensionCreator`, which adds a `debugLog` cell. -/
structure SimpleCreatorState extends CreatorState where
  debugLog : List String
deriving DecidableEq, Repr

/-- Initial state of `ChromeExtensionCreator` (the `useState` initial
values in extension-creator.tsx lines 133 to 141). -/
def initialCreatorState : CreatorState :=
  { step := 1
    prompt := ""
    selectedType := ""
    selectedPermissions := []
    targetWebsites := ""
    isGenerating := false
    generationProgress := 0
    analysis := none
    generatedExtension := none }

/-- Initial state of `SimpleExtensionCreator` (the `useState` initial
values in simple-extension-creator.tsx lines 102 to 111). -/
def initialSimpleCreatorState : SimpleCreatorState :=
  { toCreatorState := initialCreatorState, debugLog := [] }

/-- Embedding of the auto-selection block both analyze handlers run on a
parsed response (extension-creator.tsx lines 157 to 169,
simple-extension-creator.tsx lines 152 to 167, state effects only): store
the analysis, take the first suggested type if any, take the suggested
permission list if the key is present, and advance to step 2. -/
def applyAnalysisData (s : CreatorState) (data : AnalysisData) : CreatorState :=
  let newType :=
    match data.recommendations with
    | some r =>
        match r.suggested_type with
        | t :: _ => t
        | [] => s.selectedType
    | none => s.selectedType
  let newPermissions :=
    match data.recommendations with
    | some r =>
        match r.required_permissions with
        | some ps => ps
        | none => s.selectedPermissions
    | none => s.selectedPermissions
  { s with
      analysis := some data
      generationProgress := 50
      selectedType := newType
      selectedPermissions := newPermissions
      step := 2 }

namespace ChromeExtensionCreator

/-- The analyze request built by `handleAnalyzePrompt` in
extension-creator.tsx lines 151 to 155: an HTTP GET with no body.  The
prompt argument is deliberately unused because the source never sends it
(the file itself carries the remark that a real implementation would send
`body: JSON.stringify({ prompt })`). -/
def analyzeRequest (_prompt : String) : AnalyzeRequest :=
  { url := "/api/chrome-extension/analyze"
    method := HttpMethod.GET
    bodyPrompt := none }

/-- Embedding of `handleAnalyzePrompt` in extension-creator.tsx lines 143
to 176.  Returns the final state and the list of network requests issued.
The handler never reads `response.ok`, so any parsed JSON body is applied;
a rejected fetch or a failing `response.json()` lands in the catch block,
which only writes to the console.  The `finally` block clears the
generating flag and the progress value in every case.  The progress values
25 and 50 set mid-flight are overwritten by the `finally` block and appear
only through the intermediate states. -/
def handleAnalyzePrompt (s : CreatorState) (out : FetchOutcome AnalysisData) :
    CreatorState × List AnalyzeRequest :=
  if promptIsBlank s.prompt then (s, [])
  else
    let req := analyzeRequest s.prompt
    match out with
    | FetchOutcome.response _ _ _ _ (Except.ok data) =>
        let s1 := applyAnalysisData { s with isGenerating := true, generationProgress := 25 } data
        ({ s1 with isGenerating := false, generationProgress := 0 }, [req])
    | FetchOutcome.response _ _ _ _ (Except.error _) =>
        ({ s with isGenerating := false, generationProgress := 0 }, [req])
    | FetchOutcome.networkFailure _ =>
        ({ s with isGenerating := false, generationProgress := 0 }, [req])

/-- The generate request body built by `handleGenerateExtension` in
extension-creator.tsx lines 198 to 203 (identical to the body built in
simple-extension-creator.tsx lines 212 to 217); both components send it
with `POST /api/chrome-extension/generate`. -/
def generateRequestOf (s : CreatorState) : GenerateRequest :=
  { prompt := s.prompt
    extension_type := s.selectedType
    permissions := s.selectedPermissions
    target_websites := parseTargetWebsites s.targetWebsites }

/-- Embedding of `handleGenerateExtension` in extension-creator.tsx lines
178 to 220.  The handler never reads `response.ok`; a parsed JSON body is
stored and step 3 is entered, while a rejected fetch or a failing
`response.json()` lands in the catch block, which only writes to the
console and leaves step and result untouched.  The `finally` block clears
the generating flag.  The cosmetic progress interval (a `setInterval`
stepping the progress value toward 95) and the optional
`onExtensionGenerated` callback affect no state cell read by the render
and are elided. -/
def handleGenerateExtension (s : CreatorState) (out : FetchOutcome GeneratedExtension) :
    CreatorState × List GenerateRequest :=
  let req := generateRequestOf s
  match out with
  | FetchOutcome.response _ _ _ _ (Except.ok data) =>
      ({ s with
          generatedExtension := some data
          generationProgress := 100
          step := 3
          isGenerating := false }, [req])
  | FetchOutcome.response _ _ _ _ (Except.error _) =>
      ({ s with generationProgress := 0, isGenerating := false }, [req])
  | FetchOutcome.networkFailure _ =>
      ({ s with generationProgress := 0, isGenerating := false }, [req])

/-- Label text of the target-websites input, rendered only when
`selectedType === 'content_script'` (extension-creator.tsx line 462). -/
def targetWebsitesLabel : String := "Target Websites (optional)"

/-- The `disabled` expression of the generate button,
`!selectedType || isGenerating` (extension-creator.tsx line 481); the
empty string is the only falsy string. -/
def generateButtonDisabled (s : CreatorState) : Bool :=
  s.selectedType == "" || s.isGenerating

end ChromeExtensionCreator

namespace SimpleExtensionCreator

/-- Embedding of `addDebugLog` in simple-extension-creator.tsx lines 113 to
118, state effect only: append one formatted entry to the debug log.  The
timestamp is the value `new Date().toLocaleTimeString()` produced at the
call, made explicit as an argument, and the level tag is passed already
uppercased (the source applies `type.toUpperCase()`).  The accompanying
`console.log` has no state effect. -/
def addDebugLog (log : List String) (ts : String) (tag : String) (msg : String) :
    List String :=
  log ++ ["[" ++ ts ++ "] " ++ tag ++ ": " ++ msg]

/-- The analyze request built by `handleAnalyzePrompt` in
simple-extension-creator.tsx lines 132 to 142: an HTTP POST whose JSON
body is `{ prompt }`.  The optional Authorization header carries no state
the claims inspect and is elided. -/
def analyzeRequest (prompt : String) : AnalyzeRequest :=
  { url := "/api/chrome-extension/analyze"
    method := HttpMethod.POST
    bodyPrompt := some prompt }

/-- The failure record `handleAnalyzePrompt` stores in the catch block
(simple-extension-creator.tsx lines 171 to 178): the thrown message plus a
placeholder recommendation object.  The object literal has no
`suggested_type` key, embedded as `[]`. -/
def analysisFailureRecord (msg : String) : AnalysisData :=
  { errorMsg := some msg
    recommendations := some
      { suggested_type := []
        required_permissions := some []
        complexity_score := some "Unknown"
        estimated_development_time := some "Unknown" } }

/-- Embedding of `handleAnalyzePrompt` in simple-extension-creator.tsx
lines 120 to 183.  A blank prompt only logs one error entry and returns; a
non-ok response throws after logging, a failing `response.json()` or a
rejected fetch throws directly, and the catch block logs and stores the
failure record; the `finally` block clears the generating flag and the
progress value. -/
def handleAnalyzePrompt (s : SimpleCreatorState) (ts : String)
    (out : FetchOutcome AnalysisData) : SimpleCreatorState × List AnalyzeRequest :=
  if promptIsBlank s.prompt then
    ({ s with debugLog := addDebugLog s.debugLog ts "ERROR" "No prompt provided" }, [])
  else
    let req := analyzeRequest s.prompt
    let log1 := addDebugLog s.debugLog ts "INFO" "Starting extension analysis..."
    match out with
    | FetchOutcome.response true status _ _ (Except.ok data) =>
        let log2 := addDebugLog log1 ts "INFO" ("API Response Status: " ++ toString status)
        let log3 := addDebugLog log2 ts "SUCCESS" "Analysis completed successfully"
        let log4 :=
          match data.recommendations with
          | some r =>
              let la :=
                match r.suggested_type with
                | t :: _ => addDebugLog log3 ts "INFO" ("Auto-selected extension type: " ++ t)
                | [] => log3
              match r.required_permissions with
              | some ps =>
                  addDebugLog la ts "INFO"
                    ("Auto-selected permissions: " ++ String.intercalate ", " ps)
              | none => la
          | none => log3
        let s1 := applyAnalysisData
          { s.toCreatorState with isGenerating := true, generationProgress := 25 } data
        ({ toCreatorState := { s1 with isGenerating := false, generationProgress := 0 }
           debugLog := log4 }, [req])
    | FetchOutcome.response true status _ _ (Except.error m) =>
        let log2 := addDebugLog log1 ts "INFO" ("API Response Status: " ++ toString status)
        let log3 := addDebugLog log2 ts "ERROR" ("Analysis error: " ++ m)
        ({ toCreatorState :=
            { s.toCreatorState with
                analysis := some (analysisFailureRecord m)
                isGenerating := false
                generationProgress := 0 }
           debugLog := log3 }, [req])
    | FetchOutcome.response false status statusText bodyText _ =>
        let thrown := "Analysis failed: " ++ toString status ++ " " ++ statusText
        let log2 := addDebugLog log1 ts "INFO" ("API Response Status: " ++ toString status)
        let log3 := addDebugLog log2 ts "ERROR"
          ("API Error: " ++ toString status ++ " " ++ statusText ++ " - " ++ bodyText)
        let log4 := addDebugLog log3 ts "ERROR" ("Analysis error: " ++ thrown)
        ({ toCreatorState :=
            { s.toCreatorState with
                analysis := some (analysisFailureRecord thrown)
                isGenerating := false
                generationProgress := 0 }
           debugLog := log4 }, [req])
    | FetchOutcome.networkFailure m =>
        let log2 := addDebugLog log1 ts "ERROR" ("Analysis error: " ++ m)
        ({ toCreatorState :=
            { s.toCreatorState with
                analysis := some (analysisFailureRecord m)
                isGenerating := false
                generationProgress := 0 }
           debugLog := log2 }, [req])

/-- The failure record `handleGenerateExtension` stores in the catch block
(simple-extension-creator.tsx lines 241 to 249); the object literal has no
`download_url` key, embedded as `none`. -/
def generationFailureRecord (msg : String) : GeneratedExtension :=
  { error := some msg
    extension_id := ""
    name := ""
    description := ""
    extension_type := ""
    status := "failed"
    install_instructions := []
    download_url := none }

/-- Embedding of `handleGenerateExtension` in simple-extension-creator.tsx
lines 185 to 254.  Every failure path stores the failure record and still
enters step 3; the `finally` block clears the generating flag.  The
cosmetic progress interval and the optional `onExtensionGenerated`
callback are elided as in the other component. -/
def handleGenerateExtension (s : SimpleCreatorState) (ts : String)
    (out : FetchOutcome GeneratedExtension) : SimpleCreatorState × List GenerateRequest :=
  let req := ChromeExtensionCreator.generateRequestOf s.toCreatorState
  let log1 := addDebugLog s.debugLog ts "INFO" "Starting extension generation..."
  match out with
  | FetchOutcome.response true status _ _ (Except.ok data) =>
      let log2 := addDebugLog log1 ts "INFO"
        ("Generation API Response Status: " ++ toString status)
      let log3 := addDebugLog log2 ts "SUCCESS"
        ("Extension generated successfully: " ++ data.name)
      ({ toCreatorState :=
          { s.toCreatorState with
              generatedExtension := some data
              generationProgress := 100
              step := 3
              isGenerating := false }
         debugLog := log3 }, [req])
  | FetchOutcome.response true status _ _ (Except.error m) =>
      let log2 := addDebugLog log1 ts "INFO"
        ("Generation API Response Status: " ++ toString status)
      let log3 := addDebugLog log2 ts "ERROR" ("Generation error: " ++ m)
      ({ toCreatorState :=
          { s.toCreatorState with
              generatedExtension := some (generationFailureRecord m)
              step := 3
              isGenerating := false }
         debugLog := log3 }, [req])
  | FetchOutcome.response false status statusText bodyText _ =>
      let thrown := "Extension generation failed: " ++ toString status ++ " " ++ statusText
      let log2 := addDebugLog log1 ts "INFO"
        ("Generation API Response Status: " ++ toString status)
      let log3 := addDebugLog log2 ts "ERROR"
        ("Generation API Error: " ++ toString status ++ " " ++ statusText ++ " - " ++ bodyText)
      let log4 := addDebugLog log3 ts "ERROR" ("Generation error: " ++ thrown)
      ({ toCreatorState :=
          { s.toCreatorState with
              generatedExtension := some (generationFailureRecord thrown)
              step := 3
              isGenerating := false }
         debugLog := log4 }, [req])
  | FetchOutcome.networkFailure m =>
      let log2 := addDebugLog log1 ts "ERROR" ("Generation error: " ++ m)
      ({ toCreatorState :=
          { s.toCreatorState with
              generatedExtension := some (generationFailureRecord m)
              step := 3
              isGenerating := false }
         debugLog := log2 }, [req])

/-- Embedding of `togglePermission` in simple-extension-creator.tsx lines
283 to 290, state effect on the selected-permissions list only (the
trailing `addDebugLog` call touches just the debug log):
`prev.includes(id) ? prev.filter(p => p !== id) : [...prev, id]`. -/
def togglePermission (prev : List String) (permissionId : String) : List String :=
  if permissionId ∈ prev then prev.filter (fun p => p != permissionId)
  else prev ++ [permissionId]

/-- Label text of the target-websites input, rendered only when
`selectedType === 'content_script'` (simple-extension-creator.tsx line
511). -/
def targetWebsitesLabel : String := "Target Websites (optional)"

/-- The `disabled` expression of the generate button,
`!selectedType || isGenerating` (simple-extension-creator.tsx line 536). -/
def generateButtonDisabled (s : SimpleCreatorState) : Bool :=
  s.selectedType == "" || s.isGenerating

end SimpleExtensionCreator

/-- One entry of the `extensionTypes` catalog as declared in
simple-extension-creator.tsx (interface `ExtensionType`, lines 5 to 11). -/
structure ExtensionTypeEntry where
  id : String
  name : String
  description : String
  complexity : String
  examples : List String
deriving DecidableEq, Repr

/-- One entry of the `extensionTypes` catalog as declared in
extension-creator.tsx (interface `ExtensionType`, lines 30 to 37); the
`icon` field holds the name of the referenced icon component. -/
structure ExtensionTypeEntryI extends ExtensionTypeEntry where
  icon : String
deriving DecidableEq, Repr

namespace ChromeExtensionCreator

/-- The module-level constant `extensionTypes` of extension-creator.tsx
lines 47 to 88. -/
def extensionTypes : List ExtensionTypeEntryI :=
  [ { id := "popup"
      name := "Popup Extension"
      description := "Extension with a popup interface accessible from the browser toolbar"
      complexity := "Simple"
      examples := ["Password generator", "Unit converter", "Quick notes"]
      icon := "Extension" },
    { id := "content_script"
      name := "Content Script Extension"
      description := "Extension that modifies or enhances web pages"
      complexity := "Medium"
      examples := ["Ad blocker", "Page translator", "Social media enhancer"]
      icon := "Code" },
    { id := "background"
      name := "Background Extension"
      description := "Extension with background processing capabilities"
      complexity := "Advanced"
      examples := ["System monitor", "Auto-backup", "Notification manager"]
      icon := "Monitor" },
    { id := "devtools"
      name := "DevTools Extension"
      description := "Extension that adds panels to Chrome Developer Tools"
      complexity := "Advanced"
      examples := ["React DevTools", "Performance profiler", "API inspector"]
      icon := "Settings" },
    { id := "options"
      name := "Options Extension"
      description := "Extension with a dedicated options/settings page"
      complexity := "Simple"
      examples := ["Theme customizer", "Privacy settings", "Feature toggles"]
      icon := "Settings" } ]

end ChromeExtensionCreator

namespace SimpleExtensionCreator

/-- The module-level constant `extensionTypes` of
simple-extension-creator.tsx lines 21 to 57. -/
def extensionTypes : List ExtensionTypeEntry :=
  [ { id := "popup"
      name := "Popup Extension"
      description := "Extension with a popup interface accessible from the browser toolbar"
      complexity := "Simple"
      examples := ["Password generator", "Unit converter", "Quick notes"] },
    { id := "content_script"
      name := "Content Script Extension"
      description := "Extension that modifies or enhances web pages"
      complexity := "Medium"
      examples := ["Ad blocker", "Page translator", "Social media enhancer"] },
    { id := "background"
      name := "Background Extension"
      description := "Extension with background processing capabilities"
      complexity := "Advanced"
      examples := ["System monitor", "Auto-backup", "Notification manager"] },
    { id := "devtools"
      name := "DevTools Extension"
      description := "Extension that adds panels to Chrome Developer Tools"
      complexity := "Advanced"
      examples := ["React DevTools", "Performance profiler", "API inspector"] },
    { id := "options"
      name := "Options Extension"
      description := "Extension with a dedicated options/settings page"
      complexity := "Simple"
      examples := ["Theme customizer", "Privacy settings", "Feature toggles"] } ]

end SimpleExtensionCreator

/-- The `action` object of a Manifest V3 manifest as it appears in the
popup_timer template. -/
structure ManifestAction where
  default_popup : String
  default_title : String
deriving DecidableEq, Repr

/-- A Manifest V3 manifest with the keys the popup_timer template declares;
`icons` maps the size key to the icon path. -/
structure ChromeManifest where
  manifest_version : Nat
  name : String
  version : String
  description : String
  permissions : List String
  action : ManifestAction
  icons : List (String × String)
deriving DecidableEq, Repr

/-- A chrome-extension template record with the top-level keys of
`backend/app/templates/chrome_extensions/popup_timer.json`.  The bodies of
the entries of the `files` object are multi-kilobyte generated code text
irrelevant to every claim here, so only the file paths (the keys of that
object) are embedded. -/
structure ExtensionTemplate where
  name : String
  description : String
  type : String
  complexity : String
  estimated_time : String
  permissions : List String
  manifest : ChromeManifest
  filePaths : List String
  install_instructions : List String
  features : List String
  use_cases : List String
deriving DecidableEq, Repr

/-- Embedding of `backend/app/templates/chrome_extensions/popup_timer.json`
(file bodies elided as described on `ExtensionTemplate`). -/
def popup_timer : ExtensionTemplate :=
  { name := "Pomodoro Timer Extension"
    description := "A productivity timer extension with Pomodoro technique support"
    type := "popup"
    complexity := "Simple"
    estimated_time := "10-15 minutes"
    permissions := ["storage", "notifications", "alarms"]
    manifest :=
      { manifest_version := 3
        name := "AI Generated Pomodoro Timer"
        version := "1.0.0"
        description := "A Pomodoro timer to boost your productivity"
        permissions := ["storage", "notifications", "alarms"]
        action :=
          { default_popup := "popup.html"
            default_title := "Pomodoro Timer" }
        icons :=
          [ ("16", "icons/icon16.png"), ("32", "icons/icon32.png"),
            ("48", "icons/icon48.png"), ("128", "icons/icon128.png") ] }
    filePaths := ["popup.html", "popup.css", "popup.js"]
    install_instructions :=
      [ "1. Download and extract the extension files",
        "2. Open Chrome and go to chrome://extensions/",
        "3. Enable 'Developer mode' in the top right",
        "4. Click 'Load unpacked' and select the extension folder",
        "5. The Pomodoro timer icon will appear in your toolbar",
        "6. Click the icon to start using your productivity timer!" ]
    features :=
      [ "25/5 minute work/break timer (customizable)",
        "Visual and audio notifications",
        "Session tracking and statistics",
        "Persistent settings storage",
        "Clean, modern interface",
        "Keyboard shortcuts support" ]
    use_cases :=
      [ "Productivity enhancement", "Time management", "Focus improvement",
        "Work-life balance", "Study sessions" ] }

/-- One entry of the debug service log.  The field `data` of the source
interface `DebugEntry` has type `any` (an arbitrary untyped JSON value no
code inspects) and is elided; `stack` is the optional captured stack. -/
structure DebugEntry where
  timestamp : String
  level : String
  component : String
  message : String
  stack : Option String
deriving DecidableEq, Repr

namespace DebugService

/-- The private field `maxEntries = 100` of class `DebugService`. -/
def maxEntries : Nat := 100

/-- State effect of one `DebugService.log` call on the private `entries`
array: push the new entry, then, if the length exceeds `maxEntries`, keep
only the last `maxEntries` entries (`entries.slice(-maxEntries)`).  The
console output has no state effect. -/
def logStep (entries : List DebugEntry) (e : DebugEntry) : List DebugEntry :=
  let es := entries ++ [e]
  if es.length > maxEntries then es.drop (es.length - maxEntries) else es

/-- The entry `DebugService.log` constructs: the current ISO timestamp and,
for level error only, the captured stack (both runtime values, passed
explicitly). -/
def mkEntry (ts : String) (level : String) (component : String) (message : String)
    (stack : String) : DebugEntry :=
  { timestamp := ts
    level := level
    component := component
    message := message
    stack := if level == "error" then some stack else none }

/-- Embedding of `DebugService.log`: construct the entry and append it with
truncation. -/
def log (entries : List DebugEntry) (ts : String) (level : String) (component : String)
    (message : String) (stack : String) : List DebugEntry :=
  logStep entries (mkEntry ts level component message stack)

/-- Embedding of the wrapper `DebugService.info`. -/
def info (entries : List DebugEntry) (ts : String) (component : String)
    (message : String) (stack : String) : List DebugEntry :=
  log entries ts "info" component message stack

/-- Embedding of the wrapper `DebugService.warn`. -/
def warn (entries : List DebugEntry) (ts : String) (component : String)
    (message : String) (stack : String) : List DebugEntry :=
  log entries ts "warn" component message stack

/-- Embedding of the wrapper `DebugService.error`. -/
def error (entries : List DebugEntry) (ts : String) (component : String)
    (message : String) (stack : String) : List DebugEntry :=
  log entries ts "error" component message stack

/-- Embedding of the wrapper `DebugService.success`. -/
def success (entries : List DebugEntry) (ts : String) (component : String)
    (message : String) (stack : String) : List DebugEntry :=
  log entries ts "success" component message stack

end DebugService

/-- Error taxonomy of the spec (section 7). -/
inductive ErrKind where
  | InvalidInput
  | MissingConfiguration
  | TemplateMissing
  | ProviderError
  | PackagingError
deriving DecidableEq, Repr

/-- An analyze response as the spec describes it (section 6). -/
structure AnalysisResultSpec where
  degraded : Bool
  suggested_types : List (String × Nat)
  required_permissions : List String
  complexity_score : String
  estimated_development_time : String
deriving DecidableEq, Repr

/-- Modelled from the spec: the backend analyze endpoint
(`backend/app/api/endpoints/chrome_extension.py`, not under the provided
source tree).  Per sections 4.1 and 6, a prompt that is empty after
trimming fails with InvalidInput, an HTTP 4xx, and produces no
AnalysisResult; any other prompt yields HTTP 200 with a result, degrading
to the deterministic heuristic (default permission set `storage`, Medium
complexity) when the provider call fails. -/
def analyzeEndpoint (prompt : String) (providerResult : Option AnalysisResultSpec) :
    Nat × Option AnalysisResultSpec :=
  if promptIsBlank prompt then (400, none)
  else
    match providerResult with
    | some r => (200, some r)
    | none =>
        (200, some
          { degraded := true
            suggested_types := []
            required_permissions := ["storage"]
            complexity_score := "Medium"
            estimated_development_time := "15-30 min" })

/-- Modelled from the spec: the content-script component builder
(`backend/app/services/chrome_extension_generator.py`, not under the
provided source tree).  Per section 4.3, it requires at least one
target-site pattern and fails with MissingConfiguration on an empty
pattern list instead of defaulting to all sites; on success it returns the
produced file paths. -/
def contentScriptBuild (target_websites : List String) : Except ErrKind (List String) :=
  if target_websites.isEmpty then Except.error ErrKind.MissingConfiguration
  else Except.ok ["content.js", "manifest.json"]

/-- Modelled from the spec: the deterministic manifest assembly of the
generation orchestrator (section 4.2) — after builder success the manifest
is assembled from the declared permission set without consulting model
output, so its permission list is exactly the request permission list. -/
def assembleManifest (req : GenerateRequest) : ChromeManifest :=
  { manifest_version := 3
    name := "AI Generated Extension"
    version := "1.0.0"
    description := req.prompt
    permissions := req.permissions
    action :=
      { default_popup := "popup.html", default_title := "AI Generated Extension" }
    icons := [] }

/-- Modelled from the spec: the generate endpoint of the generation
orchestrator (`backend/app/services/chrome_extension_generator.py` and
`backend/app/api/endpoints/chrome_extension.py`, not under the provided
source tree).  Per sections 4.2 and 6, an accepted request always yields
HTTP 200 with an artifact summary: a builder or packaging failure is
returned as status failed with the error captured, never thrown past the
caller, and success is returned as status complete with a download handle.
The builder outcome is an explicit argument; `genId` is the server-assigned
generation id. -/
def generateEndpoint (req : GenerateRequest) (genId : String)
    (buildOutcome : Except String (List String)) : Nat × GeneratedExtension :=
  match buildOutcome with
  | Except.error e =>
      (200,
        { extension_id := genId
          name := "AI Generated Extension"
          description := req.prompt
          extension_type := req.extension_type
          status := "failed"
          error := some e
          install_instructions := []
          download_url := none })
  | Except.ok _ =>
      (200,
        { extension_id := genId
          name := "AI Generated Extension"
          description := req.prompt
          extension_type := req.extension_type
          status := "complete"
          error := none
          install_instructions := ["Download and extract the extension files"]
          download_url := some ("/api/chrome-extension/download/" ++ genId) })

/-- Concrete states used to evaluate the handlers at specific inputs. -/
def nonBlankPromptState : CreatorState :=
  { initialCreatorState with prompt := "block distracting sites during work hours" }

/-- State at step 2 with archetype content_script chosen and the
target-websites input left empty, reachable in both components because the
generate button only requires a selected type. -/
def contentScriptEmptyTargetsState : CreatorState :=
  { initialCreatorState with
      step := 2
      prompt := "block distracting sites during work hours"
      selectedType := "content_script" }

/-- The same content-script step 2 state for `SimpleExtensionCreator`. -/
def simpleContentScriptEmptyTargetsState : SimpleCreatorState :=
  { initialSimpleCreatorState with
      step := 2
      prompt := "block distracting sites during work hours"
      selectedType := "content_script" }

/-- A configured popup state at step 2, about to generate. -/
def configuredPopupState : CreatorState :=
  { initialCreatorState with
      step := 2
      prompt := "track time on websites"
      selectedType := "popup"
      selectedPermissions := ["storage"] }

/-- A state whose prompt is whitespace only. -/
def blankPromptState : CreatorState :=
  { initialCreatorState with prompt := "   " }

/-- A `SimpleExtensionCreator` state whose prompt is whitespace only. -/
def blankPromptSimpleState : SimpleCreatorState :=
  { initialSimpleCreatorState with prompt := "   " }

theorem dropWhile_head_false {α : Type} (p : α → Bool) :
    ∀ (l : List α) (a : α) (t : List α), l.dropWhile p = a :: t → p a = false := by
  intro l
  induction l with
  | nil => intro a t h; simp at h
  | cons x xs ih =>
      intro a t h
      by_cases hx : p x = true
      · rw [List.dropWhile_cons, if_pos hx] at h
        exact ih a t h
      · rw [List.dropWhile_cons, if_neg hx] at h
        cases h
        exact Bool.eq_false_iff.mpr hx

theorem jsTrimChars_not_all_ws (l : List Char) (h : jsTrimChars l ≠ []) :
    (jsTrimChars l).all isJsWhitespace = false := by
  unfold jsTrimChars at *
  cases hw : ((l.dropWhile isJsWhitespace).reverse.dropWhile isJsWhitespace) with
  | nil => exact absurd (by rw [hw]; rfl) h
  | cons a t =>
      have hpa := dropWhile_head_false isJsWhitespace _ a t hw
      apply Bool.eq_false_iff.mpr
      intro hall
      rw [List.all_eq_true] at hall
      have hfa := hall a (by simp)
      rw [hpa] at hfa
      exact Bool.false_ne_true hfa

theorem logStep_length_le (entries : List DebugEntry) (e : DebugEntry)
    (h : entries.length ≤ DebugService.maxEntries) :
    (DebugService.logStep entries e).length ≤ DebugService.maxEntries := by
  unfold DebugService.logStep
  simp only []
  split
  · next hgt => rw [List.length_drop]; omega
  · next hle => exact Nat.le_of_not_lt hle

theorem logStep_suffix (entries : List DebugEntry) (e : DebugEntry) :
    ∃ dropped, entries ++ [e] = dropped ++ DebugService.logStep entries e := by
  unfold DebugService.logStep
  simp only []
  split
  · exact ⟨(entries ++ [e]).take ((entries ++ [e]).length - DebugService.maxEntries),
      (List.take_append_drop _ _).symm⟩
  · exact ⟨[], rfl⟩

/-- C1.  The claim is false of the code: the analyze invocation of
`ChromeExtensionCreator.handleAnalyzePrompt` sends an HTTP GET carrying no
body at all, for every prompt, and that request is exactly what the
handler issues on a non-blank prompt; only the `SimpleExtensionCreator`
path sends the specified POST whose JSON body holds the prompt. -/
theorem analyze_request_uses_get_without_body :
    (∀ p, (ChromeExtensionCreator.analyzeRequest p).method = HttpMethod.GET
      ∧ (ChromeExtensionCreator.analyzeRequest p).bodyPrompt = none)
  ∧ (ChromeExtensionCreator.handleAnalyzePrompt nonBlankPromptState
      (FetchOutcome.networkFailure "Failed to fetch")).2
      = [ChromeExtensionCreator.analyzeRequest nonBlankPromptState.prompt]
  ∧ (∀ p, (SimpleExtensionCreator.analyzeRequest p).method = HttpMethod.POST
      ∧ (SimpleExtensionCreator.analyzeRequest p).bodyPrompt = some p) := by
  refine ⟨fun p => ⟨rfl, rfl⟩, ?_, fun p => ⟨rfl, rfl⟩⟩
  decide

/-- C2.  The popup_timer template declares inside its manifest exactly the
permission list it declares at top level, and the spec-modelled manifest
assembly of the orchestrator copies the request permission set verbatim,
so the manifest permissions of a generated artifact equal the declared
permission set with no extras and no omissions. -/
theorem popup_timer_manifest_permissions_exact :
    popup_timer.manifest.permissions = popup_timer.permissions
  ∧ (∀ p, p ∈ popup_timer.manifest.permissions ↔ p ∈ popup_timer.permissions)
  ∧ (∀ req : GenerateRequest, (assembleManifest req).permissions = req.permissions) :=
  ⟨rfl, fun _ => Iff.rfl, fun _ => rfl⟩

/-- C3.  The spec-modelled content-script builder fails with
MissingConfiguration exactly on an empty target-site list, yet both
creator components label the target-websites input as optional and enable
the generate button for a content-script state whose target-websites input
is empty, transmitting an empty target_websites list — the UI treats as
optional what the builder requires. -/
theorem content_script_empty_targets_ui_divergence :
    contentScriptBuild [] = Except.error ErrKind.MissingConfiguration
  ∧ (∀ ts : List String,
      contentScriptBuild ts = Except.error ErrKind.MissingConfiguration ↔ ts = [])
  ∧ ChromeExtensionCreator.targetWebsitesLabel = "Target Websites (optional)"
  ∧ SimpleExtensionCreator.targetWebsitesLabel = "Target Websites (optional)"
  ∧ ChromeExtensionCreator.generateButtonDisabled contentScriptEmptyTargetsState = false
  ∧ SimpleExtensionCreator.generateButtonDisabled simpleContentScriptEmptyTargetsState = false
  ∧ (ChromeExtensionCreator.generateRequestOf contentScriptEmptyTargetsState).target_websites
      = [] := by
  refine ⟨rfl, ?_, rfl, rfl, by decide, by decide, by decide⟩
  intro ts
  cases ts with
  | nil => simp [contentScriptBuild]
  | cons a t => simp [contentScriptBuild]

/-- C4.  The spec-modelled generate endpoint returns HTTP 200 with an
artifact whose status is failed and whose error field is set whenever the
build fails, and status complete on success; and the
`SimpleExtensionCreator` generation handler always stores a result record
and reaches step 3 with the spinner cleared, storing the local failure
record with a failed status on a rejected fetch — so the caller can always
render a result screen. -/
theorem generate_failure_returned_not_thrown :
    (∀ (req : GenerateRequest) (gid err : String),
      (generateEndpoint req gid (Except.error err)).1 = 200
      ∧ (generateEndpoint req gid (Except.error err)).2.status = "failed"
      ∧ (generateEndpoint req gid (Except.error err)).2.error = some err)
  ∧ (∀ (req : GenerateRequest) (gid : String) (files : List String),
      (generateEndpoint req gid (Except.ok files)).1 = 200
      ∧ (generateEndpoint req gid (Except.ok files)).2.status = "complete")
  ∧ (∀ (s : SimpleCreatorState) (ts : String) (out : FetchOutcome GeneratedExtension),
      (SimpleExtensionCreator.handleGenerateExtension s ts out).1.step = 3
      ∧ (SimpleExtensionCreator.handleGenerateExtension s ts out).1.generatedExtension ≠ none
      ∧ (SimpleExtensionCreator.handleGenerateExtension s ts out).1.isGenerating = false)
  ∧ (∀ (s : SimpleCreatorState) (ts m : String),
      (SimpleExtensionCreator.handleGenerateExtension s ts
        (FetchOutcome.networkFailure m)).1.generatedExtension
        = some (SimpleExtensionCreator.generationFailureRecord m)) := by
  refine ⟨fun req gid err => ⟨rfl, rfl, rfl⟩, fun req gid files => ⟨rfl, rfl⟩, ?_, ?_⟩
  · intro s ts out
    rcases out with ⟨ok, st, stx, bt, j⟩ | m
    · cases ok
      · simp [SimpleExtensionCreator.handleGenerateExtension]
      · cases j with
        | error m => simp [SimpleExtensionCreator.handleGenerateExtension]
        | ok data => simp [SimpleExtensionCreator.handleGenerateExtension]
    · simp [SimpleExtensionCreator.handleGenerateExtension]
  · intro s ts m
    rfl

/-- C5.  The claim is false of the code for `ChromeExtensionCreator`: on a
rejected generation fetch its handler only writes to the console, leaving
the state at step 2 with no result record, so neither a success nor a
failure screen is rendered (the step 3 screen requires a stored result);
the spinner flag is cleared in every path of both components, and
`SimpleExtensionCreator` does always reach step 3 with a stored result. -/
theorem generate_error_path_dead_end :
    (ChromeExtensionCreator.handleGenerateExtension configuredPopupState
      (FetchOutcome.networkFailure "Failed to fetch")).1.isGenerating = false
  ∧ (ChromeExtensionCreator.handleGenerateExtension configuredPopupState
      (FetchOutcome.networkFailure "Failed to fetch")).1.step = 2
  ∧ (ChromeExtensionCreator.handleGenerateExtension configuredPopupState
      (FetchOutcome.networkFailure "Failed to fetch")).1.generatedExtension = none
  ∧ (∀ (s : CreatorState) (out : FetchOutcome GeneratedExtension),
      (ChromeExtensionCreator.handleGenerateExtension s out).1.isGenerating = false)
  ∧ (∀ (s : SimpleCreatorState) (ts : String) (out : FetchOutcome GeneratedExtension),
      (SimpleExtensionCreator.handleGenerateExtension s ts out).1.step = 3
      ∧ (SimpleExtensionCreator.handleGenerateExtension s ts out).1.generatedExtension ≠ none) := by
  refine ⟨rfl, rfl, rfl, ?_, ?_⟩
  · intro s out
    rcases out with ⟨ok, st, stx, bt, j⟩ | m
    · cases j with
      | error m => rfl
      | ok data => rfl
    · rfl
  · intro s ts out
    rcases out with ⟨ok, st, stx, bt, j⟩ | m
    · cases ok
      · simp [SimpleExtensionCreator.handleGenerateExtension]
      · cases j with
        | error m => simp [SimpleExtensionCreator.handleGenerateExtension]
        | ok data => simp [SimpleExtensionCreator.handleGenerateExtension]
    · simp [SimpleExtensionCreator.handleGenerateExtension]

/-- C6.  On a prompt that is empty after trimming, the
`ChromeExtensionCreator` analyze handler issues no request and returns the
state unchanged; the `SimpleExtensionCreator` analyze handler issues no
request and leaves every analysis-related state cell unchanged (it only
appends one debug-log entry); and the spec-modelled analyze endpoint
answers HTTP 400 with no AnalysisResult. -/
theorem blank_prompt_no_request_no_mutation :
    (∀ (s : CreatorState) (out : FetchOutcome AnalysisData),
      promptIsBlank s.prompt = true →
      ChromeExtensionCreator.handleAnalyzePrompt s out = (s, []))
  ∧ (∀ (s : SimpleCreatorState) (ts : String) (out : FetchOutcome AnalysisData),
      promptIsBlank s.prompt = true →
      (SimpleExtensionCreator.handleAnalyzePrompt s ts out).2 = []
      ∧ (SimpleExtensionCreator.handleAnalyzePrompt s ts out).1.toCreatorState
          = s.toCreatorState)
  ∧ (∀ (prompt : String) (provider : Option AnalysisResultSpec),
      promptIsBlank prompt = true →
      analyzeEndpoint prompt provider = (400, none)) := by
  refine ⟨?_, ?_, ?_⟩
  · intro s out h
    simp [ChromeExtensionCreator.handleAnalyzePrompt, h]
  · intro s ts out h
    simp [SimpleExtensionCreator.handleAnalyzePrompt, h]
  · intro prompt provider h
    simp [analyzeEndpoint, h]

/-- Witness for C6 at a concrete whitespace-only prompt. -/
theorem blank_prompt_no_request_no_mutation_witness :
    promptIsBlank blankPromptState.prompt = true
  ∧ ChromeExtensionCreator.handleAnalyzePrompt blankPromptState
      (FetchOutcome.networkFailure "Failed to fetch") = (blankPromptState, [])
  ∧ ((SimpleExtensionCreator.handleAnalyzePrompt blankPromptSimpleState "12:00:00"
        (FetchOutcome.networkFailure "Failed to fetch")).2 = []
     ∧ (SimpleExtensionCreator.handleAnalyzePrompt blankPromptSimpleState "12:00:00"
        (FetchOutcome.networkFailure "Failed to fetch")).1.toCreatorState
        = blankPromptSimpleState.toCreatorState)
  ∧ analyzeEndpoint "   " none = (400, none) :=
  ⟨by decide,
   blank_prompt_no_request_no_mutation.1 blankPromptState
     (FetchOutcome.networkFailure "Failed to fetch") (by decide),
   blank_prompt_no_request_no_mutation.2.1 blankPromptSimpleState "12:00:00"
     (FetchOutcome.networkFailure "Failed to fetch") (by decide),
   blank_prompt_no_request_no_mutation.2.2 "   " none (by decide)⟩

/-- C7.  Every element of the target_websites list both components put in
the generate request body is a non-empty string that is not
whitespace-only: the raw input is split on commas, each piece trimmed, and
the empty results filtered out. -/
theorem target_websites_entries_nonblank (raw x : String)
    (h : x ∈ parseTargetWebsites raw) :
    x ≠ "" ∧ x.data.all isJsWhitespace = false := by
  unfold parseTargetWebsites at h
  obtain ⟨hmem, hcond⟩ := List.mem_filter.mp h
  obtain ⟨piece, hpmem, hpx⟩ := List.mem_map.mp hmem
  have hxne : x ≠ "" := by
    intro hxe
    rw [hxe] at hcond
    exact absurd hcond (by decide)
  refine ⟨hxne, ?_⟩
  have hdata : x.data = jsTrimChars piece := by rw [← hpx]
  rw [hdata]
  apply jsTrimChars_not_all_ws
  intro hnil
  apply hxne
  rw [← hpx, hnil]

/-- Witness for C7 at a concrete raw input with a blank piece. -/
theorem target_websites_entries_nonblank_witness :
    ("example.com" ∈ parseTargetWebsites "example.com, ,*.google.com")
  ∧ ("example.com" ≠ "" ∧ ("example.com").data.all isJsWhitespace = false) :=
  ⟨by decide,
   target_websites_entries_nonblank "example.com, ,*.google.com" "example.com" (by decide)⟩

/-- C8.  Both components declare the same static extension-type catalog of
exactly the five archetype ids popup, content_script, background, devtools
and options, in that order, each entry carrying a non-empty description, a
complexity drawn from Simple, Medium and Advanced, and a non-empty example
list; the two catalogs agree on every shared field. -/
theorem extension_type_catalog_static :
    ChromeExtensionCreator.extensionTypes.map (fun t => t.id)
      = ["popup", "content_script", "background", "devtools", "options"]
  ∧ SimpleExtensionCreator.extensionTypes.map (fun t => t.id)
      = ["popup", "content_script", "background", "devtools", "options"]
  ∧ (ChromeExtensionCreator.extensionTypes.all fun t =>
      (t.complexity == "Simple" || t.complexity == "Medium" || t.complexity == "Advanced")
      && !t.examples.isEmpty && !t.description.isEmpty) = true
  ∧ (SimpleExtensionCreator.extensionTypes.all fun t =>
      (t.complexity == "Simple" || t.complexity == "Medium" || t.complexity == "Advanced")
      && !t.examples.isEmpty && !t.description.isEmpty) = true
  ∧ ChromeExtensionCreator.extensionTypes.map (fun t => t.toExtensionTypeEntry)
      = SimpleExtensionCreator.extensionTypes := by
  refine ⟨by decide, by decide, by decide, by decide, by decide⟩

/-- C9.  Each `DebugService.log` call keeps the entries array at length at
most maxEntries, the retained entries are a suffix of the appended
sequence (the most recently appended entries in their original order), and
the info, warn, error and success wrappers are exactly `log` at their
fixed level. -/
theorem debug_log_entries_bounded (entries : List DebugEntry)
    (ts level component message stack : String)
    (h : entries.length ≤ DebugService.maxEntries) :
    (DebugService.log entries ts level component message stack).length
      ≤ DebugService.maxEntries
  ∧ (∃ dropped, entries ++ [DebugService.mkEntry ts level component message stack]
      = dropped ++ DebugService.log entries ts level component message stack)
  ∧ DebugService.info entries ts component message stack
      = DebugService.log entries ts "info" component message stack
  ∧ DebugService.warn entries ts component message stack
      = DebugService.log entries ts "warn" component message stack
  ∧ DebugService.error entries ts component message stack
      = DebugService.log entries ts "error" component message stack
  ∧ DebugService.success entries ts component message stack
      = DebugService.log entries ts "success" component message stack :=
  ⟨logStep_length_le entries (DebugService.mkEntry ts level component message stack) h,
   logStep_suffix entries (DebugService.mkEntry ts level component message stack),
   rfl, rfl, rfl, rfl⟩

/-- Witness for C9 at the empty entries array. -/
theorem debug_log_entries_bounded_witness :
    ([] : List DebugEntry).length ≤ DebugService.maxEntries
  ∧ ((DebugService.log [] "t0" "info" "API" "hello" "").length ≤ DebugService.maxEntries
     ∧ (∃ dropped, [] ++ [DebugService.mkEntry "t0" "info" "API" "hello" ""]
         = dropped ++ DebugService.log [] "t0" "info" "API" "hello" "")
     ∧ DebugService.info [] "t0" "API" "hello" ""
         = DebugService.log [] "t0" "info" "API" "hello" ""
     ∧ DebugService.warn [] "t0" "API" "hello" ""
         = DebugService.log [] "t0" "warn" "API" "hello" ""
     ∧ DebugService.error [] "t0" "API" "hello" ""
         = DebugService.log [] "t0" "error" "API" "hello" ""
     ∧ DebugService.success [] "t0" "API" "hello" ""
         = DebugService.log [] "t0" "success" "API" "hello" "") :=
  ⟨by decide, debug_log_entries_bounded [] "t0" "info" "API" "hello" "" (by decide)⟩

/-- C10.  On a duplicate-free selected-permissions list, toggling the same
permission id twice yields a list with exactly the same elements; toggling
an id not in the list appends it, so it occurs exactly once; and toggling
an id that is present removes every occurrence of it. -/
theorem toggle_permission_set_involution (prev : List String) (pid : String)
    (_hnd : prev.Nodup) :
    (∀ x, x ∈ SimpleExtensionCreator.togglePermission
        (SimpleExtensionCreator.togglePermission prev pid) pid ↔ x ∈ prev)
  ∧ (pid ∉ prev → SimpleExtensionCreator.togglePermission prev pid = prev ++ [pid])
  ∧ (pid ∉ prev → (SimpleExtensionCreator.togglePermission prev pid).count pid = 1)
  ∧ (pid ∈ prev → pid ∉ SimpleExtensionCreator.togglePermission prev pid) := by
  refine ⟨?_, ?_, ?_, ?_⟩
  · intro x
    by_cases h : pid ∈ prev
    · have e1 : SimpleExtensionCreator.togglePermission prev pid
          = prev.filter (fun p => p != pid) := if_pos h
      have hpid : pid ∉ prev.filter (fun p => p != pid) := by simp [List.mem_filter]
      have e2 : SimpleExtensionCreator.togglePermission
          (SimpleExtensionCreator.togglePermission prev pid) pid
          = prev.filter (fun p => p != pid) ++ [pid] := by
        rw [e1]; exact if_neg hpid
      rw [e2]
      by_cases hx : x = pid
      · subst hx; simp [List.mem_append, h]
      · simp [List.mem_append, List.mem_filter, hx]
    · have e1 : SimpleExtensionCreator.togglePermission prev pid = prev ++ [pid] := if_neg h
      have hpid2 : pid ∈ prev ++ [pid] := by simp
      have e2 : SimpleExtensionCreator.togglePermission
          (SimpleExtensionCreator.togglePermission prev pid) pid
          = (prev ++ [pid]).filter (fun p => p != pid) := by
        rw [e1]; exact if_pos hpid2
      have hfe : prev.filter (fun p => p != pid) = prev :=
        List.filter_eq_self.mpr (fun a ha => by
          simp only [bne_iff_ne, ne_eq, decide_eq_true_eq]
          exact fun he => h (he ▸ ha))
      rw [e2, List.filter_append, hfe]
      simp
  · intro h; exact if_neg h
  · intro h
    have e1 : SimpleExtensionCreator.togglePermission prev pid = prev ++ [pid] := if_neg h
    rw [e1, List.count_append]
    simp [List.count_eq_zero_of_not_mem h]
  · intro h
    have e1 : SimpleExtensionCreator.togglePermission prev pid
        = prev.filter (fun p => p != pid) := if_pos h
    rw [e1]
    simp [List.mem_filter]

/-- Witness for C10 at a concrete duplicate-free permission list. -/
theorem toggle_permission_set_involution_witness :
    (["storage", "activeTab"] : List String).Nodup
  ∧ ("notifications" ∈ SimpleExtensionCreator.togglePermission
      (SimpleExtensionCreator.togglePermission ["storage", "activeTab"] "notifications")
      "notifications"
     ↔ "notifications" ∈ (["storage", "activeTab"] : List String))
  ∧ "notifications" ∉ (["storage", "activeTab"] : List String)
  ∧ SimpleExtensionCreator.togglePermission ["storage", "activeTab"] "notifications"
      = ["storage", "activeTab", "notifications"]
  ∧ (SimpleExtensionCreator.togglePermission ["storage", "activeTab"]
      "notifications").count "notifications" = 1
  ∧ "storage" ∈ (["storage", "activeTab"] : List String)
  ∧ "storage" ∉ SimpleExtensionCreator.togglePermission ["storage", "activeTab"] "storage" := by
  have h1 := toggle_permission_set_involution ["storage", "activeTab"] "notifications" (by decide)
  have h2 := toggle_permission_set_involution ["storage", "activeTab"] "storage" (by decide)
  refine ⟨by decide, h1.1 "notifications", by decide, ?_, h1.2.2.1 (by decide), by decide,
    h2.2.2.2 (by decide)⟩
  rw [h1.2.1 (by decide)]
  rfl
